import Mathlib

/-!
Verification of the time-entry duration / earnings / monthly-aggregation
engine of a time-tracking web application.

The embedding models the JavaScript/TypeScript sources directly:
* JS numbers are modelled as `Option ℚ` (`none` is NaN); every numeric input
  in scope is a short decimal string, so exact rational arithmetic coincides
  with IEEE double arithmetic at each value the theorems evaluate.
* Decimal database columns (duration, earnings, hourlyRate, …) store the
  formatted string, exactly as the server persists `toFixed(2)` output.
* JSON request bodies are records of `Option` fields; an absent field is
  `none` (JS `undefined`).
-/

namespace TimeTrack

/-- A JavaScript number as this code base produces it: NaN (`none`) or an
exact value (`some q`). -/
abbrev JsNum := Option ℚ

/-- JS `+` : NaN propagates. -/
def jadd : JsNum → JsNum → JsNum
  | some a, some b => some (a + b)
  | _, _ => none

/-- JS `-` : NaN propagates. -/
def jsub : JsNum → JsNum → JsNum
  | some a, some b => some (a - b)
  | _, _ => none

/-- JS `*` : NaN propagates. -/
def jmul : JsNum → JsNum → JsNum
  | some a, some b => some (a * b)
  | _, _ => none

/-- JS `/` : NaN propagates. Every divisor in scope is a nonzero literal
(60, 100), so the Infinity cases of JS division are unreachable. -/
def jdiv : JsNum → JsNum → JsNum
  | some a, some b => some (a / b)
  | _, _ => none

/-- JS `<` : any comparison with NaN is false. -/
def jlt : JsNum → JsNum → Bool
  | some a, some b => decide (a < b)
  | _, _ => false

/-- Splits a character list at every occurrence of `sep`, keeping empty
pieces, exactly as JS `String.prototype.split` does on a one-character
separator. -/
def splitOnChar (sep : Char) : List Char → List (List Char)
  | [] => [[]]
  | c :: cs =>
    if c = sep then [] :: splitOnChar sep cs
    else
      match splitOnChar sep cs with
      | [] => [[c]]
      | p :: ps => (c :: p) :: ps

/-- The value of a decimal digit character, written as a literal comparison
chain so that concrete strings reduce by rewriting alone. -/
def digitVal? (c : Char) : Option ℕ :=
  if c = '0' then some 0
  else if c = '1' then some 1
  else if c = '2' then some 2
  else if c = '3' then some 3
  else if c = '4' then some 4
  else if c = '5' then some 5
  else if c = '6' then some 6
  else if c = '7' then some 7
  else if c = '8' then some 8
  else if c = '9' then some 9
  else none

/-- Reads a character list as a base-10 natural number; `none` as soon as a
non-digit appears. The empty list yields `some 0`, matching JS
`Number("") == 0`. -/
def digitsToNat? (cs : List Char) : Option ℕ :=
  cs.foldl
    (fun acc c =>
      match acc, digitVal? c with
      | some n, some d => some (n * 10 + d)
      | _, _ => none)
    (some 0)

/-- Model of JS `Number(s)` on the strings this program feeds it: the empty
string yields `0`, a nonempty digit string yields its value, anything else
(garbage such as `"ab"`, and signs or decimal points, which never occur in
the time components in scope) yields NaN. -/
def jsNumber (s : String) : JsNum :=
  (digitsToNat? s.data).map (fun n => (n : ℚ))

/-- JS `s.split(":")`. -/
def jsSplitColon (s : String) : List String :=
  (splitOnChar ':' s.data).map String.mk

/-- `t.split(":").map(Number)` followed by the destructuring
`const [h, m] = …`; a missing second component is `undefined`, which behaves
as NaN in the arithmetic that consumes it. -/
def timeParts (t : String) : JsNum × JsNum :=
  (((jsSplitColon t).map jsNumber).headD none,
   (((jsSplitColon t).map jsNumber).get? 1).getD none)

/-- Model of JS `parseFloat` on the strings this program feeds it: an
optional leading minus, a nonempty digit integer part and an optional
nonempty digit fraction part parse to the exact rational; everything else
(including `""` and `"NaN"`) yields NaN. -/
def jsParseFloat (s : String) : JsNum :=
  match s.data with
  | [] => none
  | cs =>
    let (sign, body) : ℚ × List Char :=
      match cs with
      | '-' :: rest => (-1, rest)
      | _ => (1, cs)
    match splitOnChar '.' body with
    | [intPart] =>
      if intPart = [] then none
      else (digitsToNat? intPart).map (fun n => sign * (n : ℚ))
    | [intPart, fracPart] =>
      if intPart = [] ∨ fracPart = [] then none
      else
        match digitsToNat? intPart, digitsToNat? fracPart with
        | some i, some f =>
          some (sign * ((i : ℚ) + (f : ℚ) / (10 : ℚ) ^ fracPart.length))
        | _, _ => none
    | _ => none

/-- The duration computation of the POST /api/time-entries handler
(src/server/index.ts, lines 211-223): hour difference plus minute difference
with a borrow when the minute difference is negative, and no day
wraparound. -/
def serverComputeDuration (startTime endTime : String) : JsNum :=
  let durationHours := jsub (timeParts endTime).1 (timeParts startTime).1
  let durationMinutes := jsub (timeParts endTime).2 (timeParts startTime).2
  if jlt durationMinutes (some 0) then
    jadd (jsub durationHours (some 1)) (jdiv (jadd durationMinutes (some 60)) (some 60))
  else
    jadd durationHours (jdiv durationMinutes (some 60))

/-- `calculateDuration` from src/client/src/lib/utils/export.ts: both times
are placed on a Date at today's midnight (a timestamp is linear in the hour
and minute arguments, so it is exactly the total-minute count), the end is
pushed 24 hours later when strictly earlier than the start, and the
difference is returned in hours. `differenceInMinutes` truncates, but every
value in scope is a whole number of minutes, so it is exact; an unparsable
component gives an invalid Date, whose comparison is false and whose
difference is NaN. -/
def clientCalculateDuration (startTime endTime : String) : JsNum :=
  let startTotal := jadd (jmul (timeParts startTime).1 (some 60)) (timeParts startTime).2
  let endTotal := jadd (jmul (timeParts endTime).1 (some 60)) (timeParts endTime).2
  jdiv
    (jsub (if jlt endTotal startTotal then jadd endTotal (some 1440) else endTotal)
      startTotal)
    (some 60)

/-- Rounding to a multiple of 1/100 as ECMAScript `toFixed(2)` does on the
exact value: nearest, ties toward +infinity (Mathlib's `round`), returned as
the scaled integer. Every value the theorems evaluate is exactly
representable as a double, so the binary/decimal gap never shows. -/
def fixed2 (q : ℚ) : ℤ :=
  round (q * 100)

/-- Two-digit zero-padded decimal print of `n % 100`-sized numbers. -/
def twoDigits (n : ℕ) : String :=
  if n < 10 then "0" ++ toString n else toString n

/-- Prints a scaled integer `n` (hundredths) the way JS `toFixed(2)` prints
the corresponding number, e.g. `-1600 ↦ "-16.00"`. -/
def printFixed2 (n : ℤ) : String :=
  if n < 0 then
    "-" ++ toString ((-n).toNat / 100) ++ "." ++ twoDigits ((-n).toNat % 100)
  else
    toString (n.toNat / 100) ++ "." ++ twoDigits (n.toNat % 100)

/-- JS `x.toFixed(2)`: NaN prints `"NaN"`, any other value prints with
exactly two fraction digits after rounding. -/
def jsToFixed2 : JsNum → String
  | none => "NaN"
  | some q => printFixed2 (fixed2 q)

/-- Follows the spec's words (§4.1/§4.2): standard round-half-away-from-zero
to two decimal places, as the scaled integer; to be compared with the
code's `toFixed`-style rounding `fixed2`. -/
def specFixed2AwayFromZero (q : ℚ) : ℤ :=
  if 0 ≤ q then round (q * 100) else -round (-(q * 100))

/-- `calculateEarnings` from src/client/src/lib/utils/export.ts: the raw
product of duration and hourly rate, with no rounding step. -/
def calculateEarnings (duration hourlyRate : ℚ) : ℚ :=
  duration * hourlyRate

/-- A persisted time entry (shared/schema.ts `timeEntries`). Decimal columns
hold the stored decimal string (the server persists `toFixed(2)` output, so
`"NaN"` is storable). -/
structure TimeEntry where
  id : ℕ
  userId : ℕ
  projectId : ℕ
  date : String
  startTime : String
  endTime : String
  duration : String
  hourlyRate : String
  earnings : String
  notes : Option String
  deriving DecidableEq, Repr

/-- The schema-parsed insert shape (`insertTimeEntrySchema` =
`createInsertSchema(timeEntries).omit({id})`; the schema checks presence and
typing only, never string contents). -/
structure InsertTimeEntry where
  userId : ℕ
  projectId : ℕ
  date : String
  startTime : String
  endTime : String
  duration : String
  hourlyRate : String
  earnings : String
  notes : Option String
  deriving DecidableEq, Repr

/-- A JSON request body for the time-entry routes; `none` is an absent key
(JS `undefined`). The client forms submit all values as strings. -/
structure TimeEntryBody where
  projectId : Option ℕ := none
  date : Option String := none
  startTime : Option String := none
  endTime : Option String := none
  hourlyRate : Option String := none
  duration : Option String := none
  earnings : Option String := none
  notes : Option String := none
  deriving DecidableEq, Repr

/-- JS truthiness of an optional string field: absent (`undefined`) and the
empty string are falsy, every other string is truthy. -/
def truthy : Option String → Bool
  | some s => s ≠ ""
  | none => false

/-- JS `a || b` on an optional string field: the field when truthy, else the
fallback. -/
def jsOr (o : Option String) (fallback : String) : String :=
  match o with
  | some s => if s = "" then fallback else s
  | none => fallback

/-- The POST /api/time-entries handler (src/server/index.ts, lines 202-241):
duration and earnings are computed server-side and spread into the parsed
data after the body, overwriting any client-sent values; the only rejection
paths are the TypeError from splitting an absent startTime/endTime and the
schema's missing-required-field check (both answered with a 400). -/
def serverPostTimeEntries (body : TimeEntryBody) : Except String InsertTimeEntry :=
  match body.startTime, body.endTime with
  | some startTime, some endTime =>
    let hourlyRate : JsNum :=
      match body.hourlyRate with
      | some s => jsParseFloat s
      | none => none
    let duration := serverComputeDuration startTime endTime
    let earnings := jmul duration hourlyRate
    match body.projectId, body.date, body.hourlyRate with
    | some projectId, some date, some rateStr =>
      .ok { userId := 1, projectId := projectId, date := date,
            startTime := startTime, endTime := endTime,
            duration := jsToFixed2 duration,
            hourlyRate := rateStr,
            earnings := jsToFixed2 earnings,
            notes := body.notes }
    | _, _, _ => .error "Invalid data"
  | _, _ => .error "Invalid data"

/-- `MemStorage.updateTimeEntry`'s spread `{...entry, ...data}`: every key
present in the body overwrites the stored field, verbatim. -/
def mergeTimeEntry (entry : TimeEntry) (body : TimeEntryBody) : TimeEntry :=
  { entry with
    projectId := body.projectId.getD entry.projectId
    date := body.date.getD entry.date
    startTime := body.startTime.getD entry.startTime
    endTime := body.endTime.getD entry.endTime
    hourlyRate := body.hourlyRate.getD entry.hourlyRate
    duration := body.duration.getD entry.duration
    earnings := body.earnings.getD entry.earnings
    notes :=
      match body.notes with
      | some n => some n
      | none => entry.notes }

/-- The PATCH /api/time-entries/:id handler (src/server/index.ts, lines
254-297) applied to a found entry: when any of startTime, endTime or
hourlyRate is truthy in the body, duration and earnings are recomputed from
the effective values (`body.field || stored field`) and written into the
body before the merge; otherwise the body is merged verbatim. -/
def serverPatchTimeEntries (entry : TimeEntry) (body : TimeEntryBody) : TimeEntry :=
  if truthy body.startTime || truthy body.endTime || truthy body.hourlyRate then
    let startTime := jsOr body.startTime entry.startTime
    let endTime := jsOr body.endTime entry.endTime
    let hourlyRate := jsParseFloat (jsOr body.hourlyRate entry.hourlyRate)
    let duration := serverComputeDuration startTime endTime
    let earnings := jmul duration hourlyRate
    mergeTimeEntry entry
      { body with duration := some (jsToFixed2 duration),
                  earnings := some (jsToFixed2 earnings) }
  else
    mergeTimeEntry entry body

/-- `totalHours` from MonthlySummary.tsx line 23:
`timeEntries.reduce((sum, entry) => sum + parseFloat(entry.duration), 0)`,
in exact rational arithmetic. This is an idealisation: the program adds IEEE
doubles, whose rounding makes the reduce order-dependent — `totalHoursFl`
below is the rounding-faithful version. -/
def totalHours (entries : List TimeEntry) : JsNum :=
  entries.foldl (fun sum entry => jadd sum (jsParseFloat entry.duration)) (some 0)

/-- `totalEarnings` from MonthlySummary.tsx line 24:
`timeEntries.reduce((sum, entry) => sum + parseFloat(entry.earnings), 0)`,
in exact rational arithmetic; the same idealisation as `totalHours`. -/
def totalEarnings (entries : List TimeEntry) : JsNum :=
  entries.foldl (fun sum entry => jadd sum (jsParseFloat entry.earnings)) (some 0)

/-- Round to the nearest integer, ties to even: the rounding step of IEEE
binary64 arithmetic. -/
def rte (x : ℚ) : ℤ :=
  if x - ⌊x⌋ < 1/2 then ⌊x⌋
  else if 1/2 < x - ⌊x⌋ then ⌊x⌋ + 1
  else if 2 ∣ ⌊x⌋ then ⌊x⌋ else ⌊x⌋ + 1

/-- The IEEE binary64 double nearest to a rational, represented by its exact
value: the 53-bit significand obtained by rounding `q / 2^(e-52)` to the
nearest integer with ties to even, where `e = ⌊log₂ |q|⌋`. Covers zero and
the normal range, which contains every value in scope. -/
def flRound (q : ℚ) : ℚ :=
  if q = 0 then 0
  else if 0 < q then
    (rte (q * 2 ^ (52 - Int.log 2 q)) : ℚ) * 2 ^ (Int.log 2 q - 52)
  else
    -((rte (-q * 2 ^ (52 - Int.log 2 (-q))) : ℚ) * 2 ^ (Int.log 2 (-q) - 52))

/-- IEEE binary64 addition: the exact sum, correctly rounded — what a JS
`+` computes on two in-range doubles. -/
def flAdd (a b : ℚ) : ℚ :=
  flRound (a + b)

/-- `flAdd` lifted through NaN, mirroring `jadd`. -/
def flAddJ : JsNum → JsNum → JsNum
  | some a, some b => some (flAdd a b)
  | _, _ => none

/-- JS `parseFloat` under IEEE semantics: the exact decimal value of the
string, rounded to the nearest double. -/
def jsParseFloatFl (s : String) : JsNum :=
  (jsParseFloat s).map flRound

/-- The `totalHours` reduce of MonthlySummary.tsx line 23 under IEEE
binary64 semantics: identical to `totalHours` except that the parsed values
and every intermediate sum are rounded to doubles, as the JS engine does. -/
def totalHoursFl (entries : List TimeEntry) : JsNum :=
  entries.foldl
    (fun sum entry => flAddJ sum (jsParseFloatFl entry.duration)) (some 0)

/-- Modelled from the spec: no code under src computes days worked from the
entries (the dashboard only displays a stored report field); §4.3 step 3
defines it as the number of distinct entry dates, a day with several entries
counting once. -/
def daysWorked (entries : List TimeEntry) : ℕ :=
  (entries.map (fun e => e.date)).toFinset.card

/-- Modelled from the spec: no code under src computes the daily average
from the entries; §4.3 step 4 defines it as hoursWorked / daysWorked, and 0
when daysWorked is 0. -/
def dailyAverage (entries : List TimeEntry) : JsNum :=
  if daysWorked entries = 0 then some 0
  else jdiv (totalHours entries) (some (daysWorked entries : ℚ))

/-- The month-level rollup fields of a `MonthlyReport` derived from one
month's entries. -/
structure MonthlyAggregate where
  hoursWorked : JsNum
  daysWorked : ℕ
  dailyAverage : JsNum
  totalEarnings : JsNum
  deriving DecidableEq, Repr

/-- The Monthly Aggregator: hour and earnings sums from
MonthlySummary.tsx lines 23-24, days worked and daily average modelled from
the spec (§4.3 steps 3-4). -/
def computeMonthlyAggregate (entries : List TimeEntry) : MonthlyAggregate :=
  { hoursWorked := totalHours entries
    daysWorked := daysWorked entries
    dailyAverage := dailyAverage entries
    totalEarnings := totalEarnings entries }

/-- A persisted monthly report (shared/schema.ts `monthlyReports`). Decimal
columns hold the stored decimal string. -/
structure MonthlyReport where
  id : ℕ
  userId : ℕ
  year : ℕ
  month : ℕ
  hoursWorked : String
  daysWorked : ℕ
  dailyAverage : String
  totalEarnings : String
  isCompleted : Bool
  deriving DecidableEq, Repr

/-- The schema-parsed insert shape (`insertMonthlyReportSchema`); the
`isCompleted` column has a database default, so the key may be absent. -/
structure InsertMonthlyReport where
  userId : ℕ
  year : ℕ
  month : ℕ
  hoursWorked : String
  daysWorked : ℕ
  dailyAverage : String
  totalEarnings : String
  isCompleted : Option Bool := none
  deriving DecidableEq, Repr

/-- A partial update body for PATCH /api/monthly-reports/:id; `none` is an
absent key. -/
structure MonthlyReportPatch where
  userId : Option ℕ := none
  year : Option ℕ := none
  month : Option ℕ := none
  hoursWorked : Option String := none
  daysWorked : Option ℕ := none
  dailyAverage : Option String := none
  totalEarnings : Option String := none
  isCompleted : Option Bool := none
  deriving DecidableEq, Repr

/-- `MemStorage.createMonthlyReport` (in-memory storage, lines 227-236):
the next counter value becomes the id and
`isCompleted === undefined ? false : isCompleted` fills the flag. -/
def createMonthlyReport (counter : ℕ) (r : InsertMonthlyReport) : MonthlyReport :=
  { id := counter
    userId := r.userId
    year := r.year
    month := r.month
    hoursWorked := r.hoursWorked
    daysWorked := r.daysWorked
    dailyAverage := r.dailyAverage
    totalEarnings := r.totalEarnings
    isCompleted :=
      match r.isCompleted with
      | none => false
      | some b => b }

/-- `MemStorage.updateMonthlyReport` (in-memory storage, lines 238-245)
applied to a found report: the spread `{...report, ...reportData}`, so every
key present in the patch overwrites the stored field. -/
def updateMonthlyReport (report : MonthlyReport) (data : MonthlyReportPatch) : MonthlyReport :=
  { report with
    userId := data.userId.getD report.userId
    year := data.year.getD report.year
    month := data.month.getD report.month
    hoursWorked := data.hoursWorked.getD report.hoursWorked
    daysWorked := data.daysWorked.getD report.daysWorked
    dailyAverage := data.dailyAverage.getD report.dailyAverage
    totalEarnings := data.totalEarnings.getD report.totalEarnings
    isCompleted := data.isCompleted.getD report.isCompleted }

/-- The MemStorage `timeEntries` JS Map, as its insertion-ordered key/value
pairs (a Map holds at most one pair per key). -/
abbrev EntryMap := List (ℕ × TimeEntry)

/-- `this.timeEntries.get(id)` behind `MemStorage.getTimeEntry` (lines
184-186): the value stored under the key, `undefined` when absent. -/
def getTimeEntry : EntryMap → ℕ → Option TimeEntry
  | [], _ => none
  | p :: rest, id => if p.1 = id then some p.2 else getTimeEntry rest id

/-- The pairs remaining after `this.timeEntries.delete(id)`: every pair
whose key is `id` is removed (a Map has at most one). -/
def removeKey : EntryMap → ℕ → EntryMap
  | [], _ => []
  | p :: rest, id =>
    if p.1 = id then removeKey rest id else p :: removeKey rest id

/-- `Map.has`-style check used for `Map.delete`'s return value. -/
def hasKey : EntryMap → ℕ → Bool
  | [], _ => false
  | p :: rest, id => p.1 = id || hasKey rest id

/-- `MemStorage.deleteTimeEntry` (lines 208-210): returns
`this.timeEntries.delete(id)` — the map without the key, plus `true` exactly
when the key was present. -/
def deleteTimeEntry (m : EntryMap) (id : ℕ) : EntryMap × Bool :=
  (removeKey m id, hasKey m id)

/-- A time parses to an in-range hour and minute pair: the shape every
well-formed `HH:MM` string (0 ≤ HH < 24, 0 ≤ MM < 60) reduces to under
`split(":").map(Number)`. -/
def wellFormedTime (t : String) : Prop :=
  ∃ h m : ℕ, h < 24 ∧ m < 60 ∧ timeParts t = (some (h : ℚ), some (m : ℚ))

/-- A stored entry used to instantiate the theorems: 09:00-17:00 at rate 25,
duration 8h, earnings 200. -/
def sampleEntry : TimeEntry :=
  { id := 1, userId := 1, projectId := 1, date := "2025-01-15",
    startTime := "09:00", endTime := "17:00", duration := "8.00",
    hourlyRate := "25", earnings := "200.00", notes := none }

/-- A second stored entry on another date: 10:00-14:00 at rate 20,
duration 4h, earnings 80. -/
def sampleEntryB : TimeEntry :=
  { id := 2, userId := 1, projectId := 1, date := "2025-01-16",
    startTime := "10:00", endTime := "14:00", duration := "4.00",
    hourlyRate := "20", earnings := "80.00", notes := none }

/-- A patch body that only moves the end time to 18:00. -/
def sampleEditBody : TimeEntryBody :=
  { endTime := some "18:00" }

/-- An insert body with an out-of-range hour (25:00) in startTime. -/
def badHourBody : TimeEntryBody :=
  { projectId := some 1, date := some "2025-01-15",
    startTime := some "25:00", endTime := some "27:30",
    hourlyRate := some "20" }

/-- An insert body with a non-numeric startTime. -/
def nonNumericBody : TimeEntryBody :=
  { projectId := some 1, date := some "2025-01-15",
    startTime := some "ab:cd", endTime := some "17:00",
    hourlyRate := some "20" }

/-- The entry the POST path commits for sampleEntry's field values, with its
derived fields written as the recomputation the server performs. -/
def samplePost : InsertTimeEntry :=
  { userId := 1, projectId := 1, date := "2025-01-15",
    startTime := "09:00", endTime := "17:00",
    duration := jsToFixed2 (serverComputeDuration "09:00" "17:00"),
    hourlyRate := "25",
    earnings := jsToFixed2 (jmul (serverComputeDuration "09:00" "17:00")
      (jsParseFloat "25")),
    notes := none }

/-- A 6-minute entry: 09:00-09:06 at rate 20 stores duration "0.10"
(the server's own toFixed(2) output for 6/60 hours) and earnings "2.00". -/
def ulpEntryA : TimeEntry :=
  { id := 1, userId := 1, projectId := 1, date := "2025-02-03",
    startTime := "09:00", endTime := "09:06", duration := "0.10",
    hourlyRate := "20", earnings := "2.00", notes := none }

/-- A 12-minute entry storing duration "0.20" and earnings "4.00". -/
def ulpEntryB : TimeEntry :=
  { id := 2, userId := 1, projectId := 1, date := "2025-02-03",
    startTime := "10:00", endTime := "10:12", duration := "0.20",
    hourlyRate := "20", earnings := "4.00", notes := none }

/-- An 18-minute entry storing duration "0.30" and earnings "6.00". -/
def ulpEntryC : TimeEntry :=
  { id := 3, userId := 1, projectId := 1, date := "2025-02-03",
    startTime := "11:00", endTime := "11:18", duration := "0.30",
    hourlyRate := "20", earnings := "6.00", notes := none }

/-- A report insert whose body does not mention isCompleted. -/
def sampleReportInsert : InsertMonthlyReport :=
  { userId := 1, year := 2025, month := 1, hoursWorked := "12.00",
    daysWorked := 2, dailyAverage := "6.00", totalEarnings := "280.00" }

/-- A stored report already marked completed. -/
def sampleReportCompleted : MonthlyReport :=
  { id := 3, userId := 1, year := 2025, month := 1, hoursWorked := "12.00",
    daysWorked := 2, dailyAverage := "6.00", totalEarnings := "280.00",
    isCompleted := true }

/-- A report patch that refreshes the aggregates and does not mention
isCompleted. -/
def sampleReportPatch : MonthlyReportPatch :=
  { hoursWorked := some "15.00", daysWorked := some 3,
    dailyAverage := some "5.00", totalEarnings := some "340.00" }

section Lemmas

/-- A NaN factor makes the product NaN. -/
theorem jmul_none_left (b : JsNum) : jmul none b = none := by
  cases b <;> rfl

/-- NaN prints as "NaN". -/
theorem jsToFixed2_none : jsToFixed2 none = "NaN" := rfl

/-- Adding in a different order on the right commutes, also through NaN. -/
theorem jadd_right_comm (a b c : JsNum) :
    jadd (jadd a b) c = jadd (jadd a c) b := by
  cases a <;> cases b <;> cases c <;> simp [jadd, add_right_comm]

/-- A present, nonempty optional string coincides with its `||` fallback
form. -/
theorem getD_eq_jsOr (o : Option String) (d : String) (h : o ≠ some "") :
    o.getD d = jsOr o d := by
  cases o with
  | none => rfl
  | some s =>
    have hs : s ≠ "" := fun hh => h (by rw [hh])
    simp [jsOr, hs]

/-- A fold of `jadd` over a list is invariant under permutation of the
list. -/
theorem foldl_jadd_perm (f : TimeEntry → JsNum) {l₁ l₂ : List TimeEntry}
    (h : l₁.Perm l₂) :
    ∀ init : JsNum,
      l₁.foldl (fun s e => jadd s (f e)) init =
        l₂.foldl (fun s e => jadd s (f e)) init := by
  induction h with
  | nil => intro init; rfl
  | cons x _ ih => intro init; exact ih (jadd init (f x))
  | swap x y l =>
    intro init
    simp only [List.foldl_cons]
    rw [jadd_right_comm]
  | trans _ _ ih₁ ih₂ => intro init; rw [ih₁ init, ih₂ init]

/-- Total hours are invariant under permutation of the entries. -/
theorem totalHours_perm {l₁ l₂ : List TimeEntry} (h : l₁.Perm l₂) :
    totalHours l₁ = totalHours l₂ :=
  foldl_jadd_perm (fun e => jsParseFloat e.duration) h (some 0)

/-- Total earnings are invariant under permutation of the entries. -/
theorem totalEarnings_perm {l₁ l₂ : List TimeEntry} (h : l₁.Perm l₂) :
    totalEarnings l₁ = totalEarnings l₂ :=
  foldl_jadd_perm (fun e => jsParseFloat e.earnings) h (some 0)

/-- Days worked are invariant under permutation of the entries. -/
theorem daysWorked_perm {l₁ l₂ : List TimeEntry} (h : l₁.Perm l₂) :
    daysWorked l₁ = daysWorked l₂ := by
  unfold daysWorked
  rw [List.toFinset_eq_of_perm _ _ (h.map (fun e => e.date))]

/-- Looking up the deleted key afterwards finds nothing. -/
theorem getTimeEntry_removeKey_self (m : EntryMap) (id : ℕ) :
    getTimeEntry (removeKey m id) id = none := by
  induction m with
  | nil => rfl
  | cons p rest ih =>
    by_cases h : p.1 = id <;> simp [removeKey, getTimeEntry, h, ih]

/-- Looking up any other key is unaffected by the deletion. -/
theorem getTimeEntry_removeKey_other (m : EntryMap) (id j : ℕ) (hj : j ≠ id) :
    getTimeEntry (removeKey m id) j = getTimeEntry m j := by
  induction m with
  | nil => rfl
  | cons p rest ih =>
    by_cases h : p.1 = id
    · have hij : ¬ (id = j) := fun hh => hj hh.symm
      simp [removeKey, getTimeEntry, h, hij, ih]
    · simp only [removeKey, if_neg h]
      by_cases hpj : p.1 = j <;> simp [getTimeEntry, hpj, ih]

/-- `Map.delete`'s boolean agrees with presence under `get`. -/
theorem hasKey_eq_isSome (m : EntryMap) (id : ℕ) :
    hasKey m id = (getTimeEntry m id).isSome := by
  induction m with
  | nil => rfl
  | cons p rest ih =>
    by_cases h : p.1 = id <;> simp [hasKey, getTimeEntry, h, ih]

/-- `Int.log 2` is pinned down by the two power bounds. -/
theorem intLog2_eq {q : ℚ} {e : ℤ} (hq : 0 < q)
    (h1 : (2 : ℚ) ^ e ≤ q) (h2 : q < (2 : ℚ) ^ (e + 1)) :
    Int.log 2 q = e :=
  le_antisymm
    (Int.lt_add_one_iff.mp ((Int.lt_zpow_iff_log_lt (by norm_num) hq).mp h2))
    ((Int.zpow_le_iff_le_log (by norm_num) hq).mp h1)

/-- Ties-to-even rounding below the midpoint. -/
theorem rte_eq_of_lt (f : ℤ) {x : ℚ} (hf : ⌊x⌋ = f) (h : x - f < 1/2) :
    rte x = f := by
  rw [rte, hf, if_pos h]

/-- Ties-to-even rounding above the midpoint. -/
theorem rte_eq_of_gt (f : ℤ) {x : ℚ} {n : ℤ} (hf : ⌊x⌋ = f)
    (h : 1/2 < x - f) (hfn : f + 1 = n) : rte x = n := by
  rw [rte, hf, if_neg (by linarith), if_pos h, hfn]

/-- Ties-to-even rounding at the midpoint with an odd floor. -/
theorem rte_eq_of_tie_odd (f : ℤ) {x : ℚ} {n : ℤ} (hf : ⌊x⌋ = f)
    (h : x - f = 1/2) (ho : ¬ 2 ∣ f) (hfn : f + 1 = n) : rte x = n := by
  rw [rte, hf, h, if_neg (lt_irrefl _), if_neg (lt_irrefl _), if_neg ho, hfn]

/-- Evaluation scheme for `flRound` at a positive rational: supply the
exponent, the rounded significand and the assembled result. -/
theorem flRound_eval (e n : ℤ) {q r : ℚ} (hq : 0 < q)
    (h1 : (2 : ℚ) ^ e ≤ q) (h2 : q < (2 : ℚ) ^ (e + 1))
    (hn : rte (q * 2 ^ (52 - e)) = n)
    (hr : (n : ℚ) * 2 ^ (e - 52) = r) :
    flRound q = r := by
  rw [flRound, if_neg (ne_of_gt hq), if_pos hq, intLog2_eq hq h1 h2, hn, hr]

/-- The double nearest the decimal 0.1 (the value JS parseFloat("0.10")
returns). -/
theorem flRound_tenth : flRound (1/10 : ℚ) = 3602879701896397 / 2 ^ 55 := by
  refine flRound_eval (-4) 7205759403792794 (by norm_num) (by norm_num) (by norm_num)
    ?_ (by norm_num)
  rw [show ((1/10 : ℚ) * 2 ^ (52 - (-4 : ℤ))) = 72057594037927936 / 10 by norm_num]
  exact rte_eq_of_gt 7205759403792793 (by norm_num) (by norm_num) (by norm_num)

/-- The double nearest the decimal 0.2. -/
theorem flRound_fifth : flRound (1/5 : ℚ) = 3602879701896397 / 2 ^ 54 := by
  refine flRound_eval (-3) 7205759403792794 (by norm_num) (by norm_num) (by norm_num)
    ?_ (by norm_num)
  rw [show ((1/5 : ℚ) * 2 ^ (52 - (-3 : ℤ))) = 36028797018963968 / 5 by norm_num]
  exact rte_eq_of_gt 7205759403792793 (by norm_num) (by norm_num) (by norm_num)

/-- The double nearest the decimal 0.3. -/
theorem flRound_three_tenths : flRound (3/10 : ℚ) = 5404319552844595 / 2 ^ 54 := by
  refine flRound_eval (-2) 5404319552844595 (by norm_num) (by norm_num) (by norm_num)
    ?_ (by norm_num)
  rw [show ((3/10 : ℚ) * 2 ^ (52 - (-2 : ℤ))) = 27021597764222976 / 5 by norm_num]
  exact rte_eq_of_lt 5404319552844595 (by norm_num) (by norm_num)

/-- Doubles are fixed points of the rounding: the 0.1 double. -/
theorem flRound_fix_a :
    flRound (3602879701896397 / 2 ^ 55 : ℚ) = 3602879701896397 / 2 ^ 55 := by
  refine flRound_eval (-4) 7205759403792794 (by norm_num) (by norm_num) (by norm_num)
    ?_ (by norm_num)
  rw [show ((3602879701896397 / 2 ^ 55 : ℚ) * 2 ^ (52 - (-4 : ℤ)))
      = 7205759403792794 by norm_num]
  exact rte_eq_of_lt 7205759403792794 (by norm_num) (by norm_num)

/-- Doubles are fixed points of the rounding: the 0.3 double. -/
theorem flRound_fix_c :
    flRound (5404319552844595 / 2 ^ 54 : ℚ) = 5404319552844595 / 2 ^ 54 := by
  refine flRound_eval (-2) 5404319552844595 (by norm_num) (by norm_num) (by norm_num)
    ?_ (by norm_num)
  rw [show ((5404319552844595 / 2 ^ 54 : ℚ) * 2 ^ (52 - (-2 : ℤ)))
      = 5404319552844595 by norm_num]
  exact rte_eq_of_lt 5404319552844595 (by norm_num) (by norm_num)

/-- JS: 0.1 + 0.2 rounds up at an odd tie, giving 0.30000000000000004. -/
theorem flAdd_a_b :
    flAdd (3602879701896397 / 2 ^ 55) (3602879701896397 / 2 ^ 54) =
      5404319552844596 / 2 ^ 54 := by
  rw [flAdd, show (3602879701896397 / 2 ^ 55 + 3602879701896397 / 2 ^ 54 : ℚ)
      = 10808639105689191 / 2 ^ 55 by norm_num]
  refine flRound_eval (-2) 5404319552844596 (by norm_num) (by norm_num) (by norm_num)
    ?_ (by norm_num)
  rw [show ((10808639105689191 / 2 ^ 55 : ℚ) * 2 ^ (52 - (-2 : ℤ)))
      = 10808639105689191 / 2 by norm_num]
  exact rte_eq_of_tie_odd 5404319552844595 (by norm_num) (by norm_num) (by norm_num)
    (by norm_num)

/-- JS: 0.30000000000000004 + 0.3 rounds up at an odd tie again, giving
0.6000000000000001. -/
theorem flAdd_s_c :
    flAdd (5404319552844596 / 2 ^ 54) (5404319552844595 / 2 ^ 54) =
      5404319552844596 / 2 ^ 53 := by
  rw [flAdd, show (5404319552844596 / 2 ^ 54 + 5404319552844595 / 2 ^ 54 : ℚ)
      = 10808639105689191 / 2 ^ 54 by norm_num]
  refine flRound_eval (-1) 5404319552844596 (by norm_num) (by norm_num) (by norm_num)
    ?_ (by norm_num)
  rw [show ((10808639105689191 / 2 ^ 54 : ℚ) * 2 ^ (52 - (-1 : ℤ)))
      = 10808639105689191 / 2 by norm_num]
  exact rte_eq_of_tie_odd 5404319552844595 (by norm_num) (by norm_num) (by norm_num)
    (by norm_num)

/-- JS: 0.3 + 0.2 is exactly 0.5 (the sum is representable). -/
theorem flAdd_c_b :
    flAdd (5404319552844595 / 2 ^ 54) (3602879701896397 / 2 ^ 54) = 1/2 := by
  rw [flAdd, show (5404319552844595 / 2 ^ 54 + 3602879701896397 / 2 ^ 54 : ℚ)
      = 1/2 by norm_num]
  refine flRound_eval (-1) 4503599627370496 (by norm_num) (by norm_num) (by norm_num)
    ?_ (by norm_num)
  rw [show ((1/2 : ℚ) * 2 ^ (52 - (-1 : ℤ))) = 4503599627370496 by norm_num]
  exact rte_eq_of_lt 4503599627370496 (by norm_num) (by norm_num)

/-- JS: 0.5 + 0.1 rounds down (fraction 1/4), giving the double printed as
0.6 — one ulp below 0.6000000000000001. -/
theorem flAdd_half_a :
    flAdd (1/2) (3602879701896397 / 2 ^ 55) = 5404319552844595 / 2 ^ 53 := by
  rw [flAdd, show (1/2 + 3602879701896397 / 2 ^ 55 : ℚ)
      = 21617278211378381 / 2 ^ 55 by norm_num]
  refine flRound_eval (-1) 5404319552844595 (by norm_num) (by norm_num) (by norm_num)
    ?_ (by norm_num)
  rw [show ((21617278211378381 / 2 ^ 55 : ℚ) * 2 ^ (52 - (-1 : ℤ)))
      = 21617278211378381 / 4 by norm_num]
  exact rte_eq_of_lt 5404319552844595 (by norm_num) (by norm_num)

/-- The parsed double of the stored duration "0.10". -/
theorem parseFl_a :
    jsParseFloatFl ulpEntryA.duration = some (3602879701896397 / 2 ^ 55) := by
  have h : jsParseFloat "0.10" = some (1/10) := by
    norm_num +decide [jsParseFloat, splitOnChar, digitsToNat?, digitVal?]
  rw [show ulpEntryA.duration = "0.10" from rfl, jsParseFloatFl, h, Option.map_some',
    flRound_tenth]

/-- The parsed double of the stored duration "0.20". -/
theorem parseFl_b :
    jsParseFloatFl ulpEntryB.duration = some (3602879701896397 / 2 ^ 54) := by
  have h : jsParseFloat "0.20" = some (1/5) := by
    norm_num +decide [jsParseFloat, splitOnChar, digitsToNat?, digitVal?]
  rw [show ulpEntryB.duration = "0.20" from rfl, jsParseFloatFl, h, Option.map_some',
    flRound_fifth]

/-- The parsed double of the stored duration "0.30". -/
theorem parseFl_c :
    jsParseFloatFl ulpEntryC.duration = some (5404319552844595 / 2 ^ 54) := by
  have h : jsParseFloat "0.30" = some (3/10) := by
    norm_num +decide [jsParseFloat, splitOnChar, digitsToNat?, digitVal?]
  rw [show ulpEntryC.duration = "0.30" from rfl, jsParseFloatFl, h, Option.map_some',
    flRound_three_tenths]

/-- `flAddJ` on two present values. -/
theorem flAddJ_some (a b : ℚ) : flAddJ (some a) (some b) = some (flAdd a b) := rfl

end Lemmas

/-- C6 (counterexample): the program's hoursWorked reduce adds IEEE doubles,
and double addition is order-dependent. The stored durations "0.10", "0.20",
"0.30" — each a toFixed(2) output of the server's own creation path — sum to
0.6000000000000001 in this order but to 0.6 in the reverse: two different
doubles (5404319552844596/2^53 vs 5404319552844595/2^53), so aggregation of
a permuted sequence is not exactly the same. -/
theorem float_sum_order_dependent :
    ([ulpEntryA, ulpEntryB, ulpEntryC].Perm [ulpEntryC, ulpEntryB, ulpEntryA]) ∧
    totalHoursFl [ulpEntryA, ulpEntryB, ulpEntryC] =
      some (5404319552844596 / 2 ^ 53) ∧
    totalHoursFl [ulpEntryC, ulpEntryB, ulpEntryA] =
      some (5404319552844595 / 2 ^ 53) ∧
    totalHoursFl [ulpEntryA, ulpEntryB, ulpEntryC] ≠
      totalHoursFl [ulpEntryC, ulpEntryB, ulpEntryA] := by
  have perm : [ulpEntryA, ulpEntryB, ulpEntryC].Perm [ulpEntryC, ulpEntryB, ulpEntryA] :=
    ((List.Perm.swap ulpEntryB ulpEntryA [ulpEntryC]).trans
      (List.Perm.cons ulpEntryB (List.Perm.swap ulpEntryC ulpEntryA []))).trans
      (List.Perm.swap ulpEntryC ulpEntryB [ulpEntryA])
  have hzero_a : flAdd 0 (3602879701896397 / 2 ^ 55) = 3602879701896397 / 2 ^ 55 := by
    rw [flAdd, zero_add, flRound_fix_a]
  have hzero_c : flAdd 0 (5404319552844595 / 2 ^ 54) = 5404319552844595 / 2 ^ 54 := by
    rw [flAdd, zero_add, flRound_fix_c]
  have hfwd : totalHoursFl [ulpEntryA, ulpEntryB, ulpEntryC] =
      some (5404319552844596 / 2 ^ 53) := by
    simp only [totalHoursFl, List.foldl_cons, List.foldl_nil]
    rw [parseFl_a, parseFl_b, parseFl_c, flAddJ_some, hzero_a, flAddJ_some,
      flAdd_a_b, flAddJ_some, flAdd_s_c]
  have hrev : totalHoursFl [ulpEntryC, ulpEntryB, ulpEntryA] =
      some (5404319552844595 / 2 ^ 53) := by
    simp only [totalHoursFl, List.foldl_cons, List.foldl_nil]
    rw [parseFl_a, parseFl_b, parseFl_c, flAddJ_some, hzero_c, flAddJ_some,
      flAdd_c_b, flAddJ_some, flAdd_half_a]
  refine ⟨perm, hfwd, hrev, ?_⟩
  rw [hfwd, hrev]
  intro h
  rw [Option.some.injEq] at h
  norm_num at h

/-- C6 (amended): in exact arithmetic the aggregation is invariant under
permutation of the entries — daysWorked, a distinct-date count, matches
exactly in the program as well, and the hour and earnings sums agree up to
floating-point rounding (the permuted float reduces differ only by ulps,
never in the exact values being summed). -/
theorem monthly_aggregate_perm_invariant (l₁ l₂ : List TimeEntry)
    (h : l₁.Perm l₂) :
    computeMonthlyAggregate l₁ = computeMonthlyAggregate l₂ := by
  unfold computeMonthlyAggregate dailyAverage
  rw [totalHours_perm h, totalEarnings_perm h, daysWorked_perm h]

/-- Witness for C6 at a concrete two-entry month and its swap. -/
theorem monthly_aggregate_perm_invariant_witness :
    ([sampleEntry, sampleEntryB].Perm [sampleEntryB, sampleEntry]) ∧
    computeMonthlyAggregate [sampleEntry, sampleEntryB] =
      computeMonthlyAggregate [sampleEntryB, sampleEntry] :=
  ⟨List.Perm.swap sampleEntryB sampleEntry [],
   monthly_aggregate_perm_invariant _ _ (List.Perm.swap sampleEntryB sampleEntry [])⟩

/-- C7: aggregating an empty entry set is not an error and yields the
all-zero report: hoursWorked 0, daysWorked 0, dailyAverage 0 (no division
by zero), totalEarnings 0. -/
theorem monthly_aggregate_empty :
    computeMonthlyAggregate [] =
      { hoursWorked := some 0, daysWorked := 0,
        dailyAverage := some 0, totalEarnings := some 0 } := by
  simp [computeMonthlyAggregate, totalHours, totalEarnings, daysWorked, dailyAverage]

/-- C8: a newly created monthly report defaults isCompleted to false when
the insert does not set it, and an update whose data does not mention
isCompleted leaves the stored flag unchanged. -/
theorem isCompleted_default_false_and_preserved
    (r : InsertMonthlyReport) (counter : ℕ) (hr : r.isCompleted = none)
    (report : MonthlyReport) (data : MonthlyReportPatch)
    (hd : data.isCompleted = none) :
    (createMonthlyReport counter r).isCompleted = false ∧
    (updateMonthlyReport report data).isCompleted = report.isCompleted := by
  constructor
  · simp [createMonthlyReport, hr]
  · simp [updateMonthlyReport, hd]

/-- Witness for C8 on a concrete insert and a completed report patched
without touching the flag. -/
theorem isCompleted_default_false_and_preserved_witness :
    (createMonthlyReport 3 sampleReportInsert).isCompleted = false ∧
    (updateMonthlyReport sampleReportCompleted sampleReportPatch).isCompleted =
      sampleReportCompleted.isCompleted :=
  isCompleted_default_false_and_preserved sampleReportInsert 3 rfl
    sampleReportCompleted sampleReportPatch rfl

/-- C10: deleteTimeEntry returns true exactly when an entry with the id was
present, afterwards the id resolves to nothing, and every other id resolves
exactly as before. -/
theorem deleteTimeEntry_spec (m : EntryMap) (id : ℕ) :
    ((deleteTimeEntry m id).2 = true ↔ (getTimeEntry m id).isSome = true) ∧
    getTimeEntry (deleteTimeEntry m id).1 id = none ∧
    ∀ j : ℕ, j ≠ id →
      getTimeEntry (deleteTimeEntry m id).1 j = getTimeEntry m j := by
  refine ⟨?_, getTimeEntry_removeKey_self m id,
    fun j hj => getTimeEntry_removeKey_other m id j hj⟩
  rw [show (deleteTimeEntry m id).2 = hasKey m id from rfl, hasKey_eq_isSome]

/-- C1 (failing input): for the overnight span 22:00 → 06:00 the server POST
duration computation yields -16 hours — it never adds the 1440-minute
wraparound — and would persist "-16.00", while the client calculateDuration
wraps and returns the 8 hours the claim states. -/
theorem server_overnight_duration_negative :
    serverComputeDuration "22:00" "06:00" = some (-16) ∧
    jsToFixed2 (serverComputeDuration "22:00" "06:00") = "-16.00" ∧
    clientCalculateDuration "22:00" "06:00" = some 8 := by
  have hs : serverComputeDuration "22:00" "06:00" = some (-16) := by
    norm_num +decide [serverComputeDuration, timeParts, jsSplitColon, splitOnChar,
      jsNumber, digitsToNat?, digitVal?, jsub, jadd, jdiv, jlt, jmul]
  have hfix : fixed2 (-16) = -1600 := by norm_num [fixed2, round_eq]
  refine ⟨hs, ?_, ?_⟩
  · rw [hs]
    show printFixed2 (fixed2 (-16)) = "-16.00"
    rw [hfix]; decide
  · norm_num +decide [clientCalculateDuration, timeParts, jsSplitColon, splitOnChar,
      jsNumber, digitsToNat?, digitVal?, jsub, jadd, jdiv, jlt, jmul]

/-- C4 (counterexample): the client calculateEarnings performs no rounding:
a quarter hour at rate 0.25 returns the raw product 0.0625, not the
two-decimal half-away-from-zero value 0.06 the claim requires (all values
here are exactly representable IEEE doubles, so the rational model matches
the JS run). -/
theorem calculateEarnings_not_rounded :
    calculateEarnings (1/4) (1/4) ≠
      (specFixed2AwayFromZero ((1/4) * (1/4)) : ℚ) / 100 := by
  have h : specFixed2AwayFromZero ((1/4 : ℚ) * (1/4)) = 6 := by
    rw [specFixed2AwayFromZero, if_pos (by norm_num), round_eq]
    norm_num
  rw [h, calculateEarnings]
  norm_num

/-- C4 (amended): the server-side earnings computation rounds duration*rate
to two decimals with toFixed's ties-up rule — which coincides with the
claim's round-half-away-from-zero on the non-negative inputs in scope — and
the stored string is exactly the print of that value, while the client
calculateEarnings returns the raw product unrounded. -/
theorem earnings_rounding_amended (d r : ℚ) (hd : 0 ≤ d) (hr : 0 ≤ r) :
    fixed2 (d * r) = specFixed2AwayFromZero (d * r) ∧
    jsToFixed2 (jmul (some d) (some r)) =
      printFixed2 (specFixed2AwayFromZero (d * r)) ∧
    calculateEarnings d r = d * r := by
  have h : fixed2 (d * r) = specFixed2AwayFromZero (d * r) := by
    rw [fixed2, specFixed2AwayFromZero, if_pos (mul_nonneg hd hr)]
  exact ⟨h, by rw [jmul, jsToFixed2, h], rfl⟩

/-- Witness for C4's amended statement at 7.5 hours and rate 20 (the spec's
own example, 150.00). -/
theorem earnings_rounding_amended_witness :
    (0 : ℚ) ≤ 15/2 ∧ (0 : ℚ) ≤ 20 ∧
    (fixed2 ((15/2) * 20) = specFixed2AwayFromZero ((15/2) * 20) ∧
     jsToFixed2 (jmul (some (15/2)) (some 20)) =
       printFixed2 (specFixed2AwayFromZero ((15/2) * 20)) ∧
     calculateEarnings (15/2) 20 = (15/2) * 20) :=
  ⟨by norm_num, by norm_num,
   earnings_rounding_amended (15/2) 20 (by norm_num) (by norm_num)⟩

/-- Evaluation of the POST handler when every required field is present:
the match on the body reduces and the handler commits, with duration and
earnings recomputed from the submitted strings. -/
theorem serverPost_ok_eval (pid : ℕ)
    (dt st et hr : String) (du ea nt : Option String) :
    serverPostTimeEntries
      { projectId := some pid, date := some dt, startTime := some st,
        endTime := some et, hourlyRate := some hr,
        duration := du, earnings := ea, notes := nt } =
      .ok { userId := 1, projectId := pid, date := dt, startTime := st,
            endTime := et,
            duration := jsToFixed2 (serverComputeDuration st et),
            hourlyRate := hr,
            earnings := jsToFixed2 (jmul (serverComputeDuration st et)
              (jsParseFloat hr)),
            notes := nt } := rfl

/-- C5 (counterexample): the creation path rejects nothing about the time
format: an hour of 25 is accepted and stored with a silently computed
duration, and non-numeric components are accepted and stored as "NaN" — no
ValidationError in either case. -/
theorem malformed_times_accepted :
    serverPostTimeEntries badHourBody =
      .ok { userId := 1, projectId := 1, date := "2025-01-15",
            startTime := "25:00", endTime := "27:30", duration := "2.50",
            hourlyRate := "20", earnings := "50.00", notes := none } ∧
    serverPostTimeEntries nonNumericBody =
      .ok { userId := 1, projectId := 1, date := "2025-01-15",
            startTime := "ab:cd", endTime := "17:00", duration := "NaN",
            hourlyRate := "20", earnings := "NaN", notes := none } := by
  have hdur : serverComputeDuration "25:00" "27:30" = some (5/2) := by
    norm_num +decide [serverComputeDuration, timeParts, jsSplitColon, splitOnChar,
      jsNumber, digitsToNat?, digitVal?, jsub, jadd, jdiv, jlt, jmul]
  have hnan : serverComputeDuration "ab:cd" "17:00" = none := by
    norm_num +decide [serverComputeDuration, timeParts, jsSplitColon, splitOnChar,
      jsNumber, digitsToNat?, digitVal?, jsub, jadd, jdiv, jlt, jmul]
  have hrate : jsParseFloat "20" = some 20 := by
    norm_num +decide [jsParseFloat, splitOnChar, digitsToNat?, digitVal?]
  have hf1 : fixed2 (5/2) = 250 := by norm_num [fixed2, round_eq]
  have hf2 : fixed2 ((5/2) * 20) = 5000 := by norm_num [fixed2, round_eq]
  constructor
  · unfold badHourBody
    rw [serverPost_ok_eval, hdur, hrate]
    simp only [jmul, jsToFixed2, hf1, hf2]
    exact congrArg Except.ok (by decide)
  · unfold nonNumericBody
    rw [serverPost_ok_eval, hnan]
    simp only [jmul_none_left, jsToFixed2_none]

/-- C5 (amended): the creation path performs no content validation at all on
the time strings: whenever the required fields are present it commits, with
duration and earnings recomputed from whatever strings were sent (NaN-valued
when non-numeric). -/
theorem post_accepts_any_present_times (pid : ℕ)
    (dt st et hr : String) (du ea nt : Option String) :
    serverPostTimeEntries
      { projectId := some pid, date := some dt, startTime := some st,
        endTime := some et, hourlyRate := some hr,
        duration := du, earnings := ea, notes := nt } =
      .ok { userId := 1, projectId := pid, date := dt, startTime := st,
            endTime := et,
            duration := jsToFixed2 (serverComputeDuration st et),
            hourlyRate := hr,
            earnings := jsToFixed2 (jmul (serverComputeDuration st et)
              (jsParseFloat hr)),
            notes := nt } :=
  serverPost_ok_eval pid dt st et hr du ea nt

/-- C2: when an edit submits a (truthy) value for any of startTime, endTime
or hourlyRate, the PATCH path recomputes duration and earnings exactly as
the POST creation path does for the effective start/end/rate triple, so an
edited entry stores the same derived values as a freshly created one. -/
theorem patch_recompute_matches_post
    (entry : TimeEntry) (body : TimeEntryBody) (pid : ℕ) (dt : String)
    (htouch : (truthy body.startTime || truthy body.endTime ||
      truthy body.hourlyRate) = true) :
    ∃ post : InsertTimeEntry,
      serverPostTimeEntries
        { projectId := some pid, date := some dt,
          startTime := some (jsOr body.startTime entry.startTime),
          endTime := some (jsOr body.endTime entry.endTime),
          hourlyRate := some (jsOr body.hourlyRate entry.hourlyRate) } =
        .ok post ∧
      (serverPatchTimeEntries entry body).duration = post.duration ∧
      (serverPatchTimeEntries entry body).earnings = post.earnings := by
  refine ⟨_, serverPost_ok_eval pid dt _ _ _ none none none, ?_, ?_⟩ <;>
    simp [serverPatchTimeEntries, htouch, mergeTimeEntry]

/-- Witness for C2: moving sampleEntry's end time to 18:00. -/
theorem patch_recompute_matches_post_witness :
    (truthy sampleEditBody.startTime || truthy sampleEditBody.endTime ||
      truthy sampleEditBody.hourlyRate) = true ∧
    ∃ post : InsertTimeEntry,
      serverPostTimeEntries
        { projectId := some 1, date := some "2025-01-15",
          startTime := some (jsOr sampleEditBody.startTime sampleEntry.startTime),
          endTime := some (jsOr sampleEditBody.endTime sampleEntry.endTime),
          hourlyRate := some (jsOr sampleEditBody.hourlyRate sampleEntry.hourlyRate) } =
        .ok post ∧
      (serverPatchTimeEntries sampleEntry sampleEditBody).duration = post.duration ∧
      (serverPatchTimeEntries sampleEntry sampleEditBody).earnings = post.earnings :=
  ⟨by decide,
   patch_recompute_matches_post sampleEntry sampleEditBody 1 "2025-01-15" (by decide)⟩

/-- C3 (counterexample): a PATCH whose body carries only a client-sent
duration commits it verbatim: the stored duration becomes "999.00", the
stored times stay 09:00-17:00, and recomputing from those stored times
yields "8.00" — so the persisted value differs from the server
recomputation. -/
theorem patch_stores_client_duration :
    (serverPatchTimeEntries sampleEntry { duration := some "999.00" }).duration =
      "999.00" ∧
    (serverPatchTimeEntries sampleEntry { duration := some "999.00" }).startTime =
      "09:00" ∧
    (serverPatchTimeEntries sampleEntry { duration := some "999.00" }).endTime =
      "17:00" ∧
    jsToFixed2 (serverComputeDuration "09:00" "17:00") = "8.00" ∧
    ("999.00" : String) ≠ "8.00" := by
  have hdur : serverComputeDuration "09:00" "17:00" = some 8 := by
    norm_num +decide [serverComputeDuration, timeParts, jsSplitColon, splitOnChar,
      jsNumber, digitsToNat?, digitVal?, jsub, jadd, jdiv, jlt, jmul]
  have hf : fixed2 8 = 800 := by norm_num [fixed2, round_eq]
  refine ⟨by decide, by decide, by decide, ?_, by decide⟩
  rw [hdur]
  simp only [jsToFixed2, hf]
  decide

/-- C3 (amended): the creation path always persists duration and earnings
recomputed server-side from the submitted startTime/endTime/hourlyRate,
ignoring any client-sent values, and the update path does so exactly when
the body touches one of those three fields; an update that touches none of
them persists client-sent duration/earnings verbatim. -/
theorem derived_fields_recomputed_amended :
    (∀ (pid : ℕ) (dt st et hr : String) (du ea nt : Option String)
        (post : InsertTimeEntry),
        serverPostTimeEntries
          { projectId := some pid, date := some dt, startTime := some st,
            endTime := some et, hourlyRate := some hr,
            duration := du, earnings := ea, notes := nt } = .ok post →
        post.duration =
          jsToFixed2 (serverComputeDuration post.startTime post.endTime) ∧
        post.earnings =
          jsToFixed2 (jmul (serverComputeDuration post.startTime post.endTime)
            (jsParseFloat post.hourlyRate))) ∧
    (∀ (entry : TimeEntry) (body : TimeEntryBody),
        (truthy body.startTime || truthy body.endTime ||
          truthy body.hourlyRate) = true →
        body.startTime ≠ some "" → body.endTime ≠ some "" →
        body.hourlyRate ≠ some "" →
        (serverPatchTimeEntries entry body).duration =
          jsToFixed2 (serverComputeDuration
            (serverPatchTimeEntries entry body).startTime
            (serverPatchTimeEntries entry body).endTime) ∧
        (serverPatchTimeEntries entry body).earnings =
          jsToFixed2 (jmul (serverComputeDuration
            (serverPatchTimeEntries entry body).startTime
            (serverPatchTimeEntries entry body).endTime)
            (jsParseFloat (serverPatchTimeEntries entry body).hourlyRate))) := by
  constructor
  · intro pid dt st et hr du ea nt post h
    rw [serverPost_ok_eval] at h
    injection h with h
    subst h
    exact ⟨rfl, rfl⟩
  · intro entry body htouch hs he hr
    have h1 : body.startTime.getD entry.startTime =
        jsOr body.startTime entry.startTime := getD_eq_jsOr _ _ hs
    have h2 : body.endTime.getD entry.endTime =
        jsOr body.endTime entry.endTime := getD_eq_jsOr _ _ he
    have h3 : body.hourlyRate.getD entry.hourlyRate =
        jsOr body.hourlyRate entry.hourlyRate := getD_eq_jsOr _ _ hr
    simp [serverPatchTimeEntries, htouch, mergeTimeEntry, h1, h2, h3]

/-- Witness for C3's amended statement on sampleEntry's creation body and
the end-time edit. -/
theorem derived_fields_recomputed_amended_witness :
    (samplePost.duration =
      jsToFixed2 (serverComputeDuration samplePost.startTime samplePost.endTime) ∧
     samplePost.earnings =
      jsToFixed2 (jmul (serverComputeDuration samplePost.startTime samplePost.endTime)
        (jsParseFloat samplePost.hourlyRate))) ∧
    ((serverPatchTimeEntries sampleEntry sampleEditBody).duration =
      jsToFixed2 (serverComputeDuration
        (serverPatchTimeEntries sampleEntry sampleEditBody).startTime
        (serverPatchTimeEntries sampleEntry sampleEditBody).endTime) ∧
     (serverPatchTimeEntries sampleEntry sampleEditBody).earnings =
      jsToFixed2 (jmul (serverComputeDuration
        (serverPatchTimeEntries sampleEntry sampleEditBody).startTime
        (serverPatchTimeEntries sampleEntry sampleEditBody).endTime)
        (jsParseFloat (serverPatchTimeEntries sampleEntry sampleEditBody).hourlyRate))) :=
  ⟨derived_fields_recomputed_amended.1 1 "2025-01-15" "09:00" "17:00" "25"
      none none none samplePost rfl,
   derived_fields_recomputed_amended.2 sampleEntry sampleEditBody
      (by decide) (by decide) (by decide) (by decide)⟩

/-- C9: for well-formed HH:MM inputs the client calculateDuration always
lands in [0, 24): never negative, also for overnight spans, and never the
full 24. -/
theorem client_duration_in_unit_day (s e : String)
    (hs : wellFormedTime s) (he : wellFormedTime e) :
    ∃ q : ℚ, clientCalculateDuration s e = some q ∧ 0 ≤ q ∧ q < 24 := by
  obtain ⟨sh, sm, hsh, hsm, hps⟩ := hs
  obtain ⟨eh, em, heh, hem, hpe⟩ := he
  have hshq : (sh : ℚ) ≤ 23 := by exact_mod_cast Nat.lt_succ_iff.mp hsh
  have hsmq : (sm : ℚ) ≤ 59 := by exact_mod_cast Nat.lt_succ_iff.mp hsm
  have hehq : (eh : ℚ) ≤ 23 := by exact_mod_cast Nat.lt_succ_iff.mp heh
  have hemq : (em : ℚ) ≤ 59 := by exact_mod_cast Nat.lt_succ_iff.mp hem
  have hsh0 : (0 : ℚ) ≤ (sh : ℚ) := Nat.cast_nonneg sh
  have hsm0 : (0 : ℚ) ≤ (sm : ℚ) := Nat.cast_nonneg sm
  have heh0 : (0 : ℚ) ≤ (eh : ℚ) := Nat.cast_nonneg eh
  have hem0 : (0 : ℚ) ≤ (em : ℚ) := Nat.cast_nonneg em
  unfold clientCalculateDuration
  rw [hps, hpe]
  simp only [jadd, jmul, jsub, jdiv, jlt]
  by_cases hlt : (eh : ℚ) * 60 + em < (sh : ℚ) * 60 + sm
  · rw [if_pos (decide_eq_true hlt)]
    refine ⟨_, rfl, ?_, ?_⟩
    · exact div_nonneg (by linarith) (by norm_num)
    · rw [div_lt_iff₀ (by norm_num : (0 : ℚ) < 60)]
      linarith
  · rw [if_neg (by simpa using hlt)]
    refine ⟨_, rfl, ?_, ?_⟩
    · exact div_nonneg (by linarith [not_lt.mp hlt]) (by norm_num)
    · rw [div_lt_iff₀ (by norm_num : (0 : ℚ) < 60)]
      linarith

/-- Witness for C9 at the overnight pair 22:00 → 06:00. -/
theorem client_duration_in_unit_day_witness :
    ∃ q : ℚ, clientCalculateDuration "22:00" "06:00" = some q ∧ 0 ≤ q ∧ q < 24 :=
  client_duration_in_unit_day "22:00" "06:00"
    ⟨22, 0, by norm_num, by norm_num, by decide⟩
    ⟨6, 0, by norm_num, by norm_num, by decide⟩

/-- Witness for C10 on a one-entry map, checking the deleted id and an
unrelated id. -/
theorem deleteTimeEntry_spec_witness :
    ((deleteTimeEntry [(1, sampleEntry)] 1).2 = true ↔
      (getTimeEntry [(1, sampleEntry)] 1).isSome = true) ∧
    getTimeEntry (deleteTimeEntry [(1, sampleEntry)] 1).1 1 = none ∧
    getTimeEntry (deleteTimeEntry [(1, sampleEntry)] 1).1 2 =
      getTimeEntry [(1, sampleEntry)] 2 :=
  ⟨(deleteTimeEntry_spec [(1, sampleEntry)] 1).1,
   (deleteTimeEntry_spec [(1, sampleEntry)] 1).2.1,
   (deleteTimeEntry_spec [(1, sampleEntry)] 1).2.2 2 (by decide)⟩

end TimeTrack
